import Mathlib

/-!
Verification of the Clipboard-Mistral-OCR repository's specification against a
shallow embedding of its Python source.

Conventions of the embedding:
* Python `str` is Lean `String`; `bytes` payloads are modelled as `String`
  (their exact content never matters to the claims).
* Python `int` is Lean `Int`; page indices and digit strings use `Nat` where
  the source guarantees non-negativity (regex `\d+`).
* Python dictionaries are association lists (`List (κ × α)`), preserving
  insertion order like CPython dicts; `dict[k] = v` is `setAssoc`.
* `None` is `Option.none`; a fallible Python function returns `Except String α`
  where the `String` is `str(e)` of the raised exception.
* Whitespace (`str.strip`, regex `\s`) and digits (regex `\d`, `int()`) are
  modelled over their ASCII ranges.
* The mutable cross-thread `cancel` flag of a background job is modelled as a
  read schedule `flag : Nat → Bool`: the worker's n-th read of the flag
  observes `flag n`.  The UI only ever sets the flag (never clears it), which
  is the monotonicity hypothesis `FlagMono`.
-/

namespace ClipboardOcr

/-! ### Python string primitives (ASCII model) -/

/-- ASCII whitespace recognised by `str.strip()` and the regex class `\s`. -/
def pySpace (c : Char) : Bool :=
  c == ' ' || c == '\t' || c == '\n' || c == '\r' || c == '\x0b' || c == '\x0c'

/-- `s.strip()`: drop leading and trailing whitespace. -/
def pyStrip (s : String) : String :=
  ⟨((s.data.dropWhile pySpace).reverse.dropWhile pySpace).reverse⟩

/-- `s.strip().lower()` (ASCII lowering, which is all the source needs). -/
def pyStripLower (s : String) : String :=
  ⟨(pyStrip s).data.map Char.toLower⟩

/-- Numeric value of an ASCII digit. -/
def digitVal (c : Char) : Nat := c.toNat - 48

/-- `int(ds)` of a list of ASCII digits. -/
def digitsToNat (ds : List Char) : Nat :=
  ds.foldl (fun acc c => acc * 10 + digitVal c) 0

/-- Digit tail of a Python integer literal: digits optionally separated by
single underscores (PEP 515), no trailing or doubled underscore. -/
def pyDigitsAux : Nat → List Char → Option Nat
  | acc, [] => some acc
  | acc, '_' :: c :: rest =>
    if c.isDigit then pyDigitsAux (acc * 10 + digitVal c) rest else none
  | acc, c :: rest =>
    if c.isDigit then pyDigitsAux (acc * 10 + digitVal c) rest else none

/-- Unsigned part of `int()`: at least one digit, underscores allowed inside. -/
def pyIntCore : List Char → Option Nat
  | [] => none
  | c :: rest => if c.isDigit then pyDigitsAux (digitVal c) rest else none

/-- Python `int(s)` on an already-stripped string: optional sign, digits.
Returns `none` where CPython raises `ValueError`. -/
def pyInt (s : String) : Option Int :=
  match s.data with
  | '+' :: rest => (pyIntCore rest).map (fun n => (n : Int))
  | '-' :: rest => (pyIntCore rest).map (fun n => -(n : Int))
  | l => (pyIntCore l).map (fun n => (n : Int))

/-- Python `range(a, b)` as a list of integers. -/
def pyRange (a b : Int) : List Int :=
  (List.range (b - a).toNat).map (fun i => a + (i : Int))

/-- Truthiness of the `total_pages : int | None` argument: falsy iff `None` or `0`. -/
def pyFalsy : Option Int → Bool
  | none => true
  | some t => t == 0

/-- `text.split(',')`: split on every comma, keeping empty parts
(`"".split(',') == ['']`). -/
def splitCommaAux : List Char → List Char → List String
  | [], cur => [⟨cur.reverse⟩]
  | ',' :: rest, cur => (⟨cur.reverse⟩ : String) :: splitCommaAux rest []
  | c :: rest, cur => splitCommaAux rest (c :: cur)

/-- Python `text.split(',')`. -/
def pySplitComma (s : String) : List String := splitCommaAux s.data []

/-- CPython `set.add`: sets modelled as duplicate-free lists (iteration order
is irrelevant because every observation of the set goes through `sorted`). -/
def setAdd (acc : List Int) (v : Int) : List Int :=
  if v ∈ acc then acc else acc ++ [v]

/-- CPython `set.update(l)`. -/
def setUpdate (acc : List Int) (l : List Int) : List Int := l.foldl setAdd acc

/-- Python `sorted` on integers (insertion sort; `sorted` is deterministic on
a set of integers whatever the iteration order). -/
def pySorted (l : List Int) : List Int := List.insertionSort (· ≤ ·) l

/-! ### src/utils/range_parse.py -/

/-- The regex `^(\d+)\s*-\s*(\d+)$` from `parse_page_range`, returning the two
captured numbers on a full match. -/
def matchRange (s : String) : Option (Nat × Nat) :=
  let cs := s.data
  let d1 := cs.takeWhile Char.isDigit
  let r1 := cs.dropWhile Char.isDigit
  if d1 = [] then none
  else
    match r1.dropWhile pySpace with
    | '-' :: r3 =>
      let r4 := r3.dropWhile pySpace
      let d2 := r4.takeWhile Char.isDigit
      let r5 := r4.dropWhile Char.isDigit
      if d2 = [] ∨ r5 ≠ [] then none else some (digitsToNat d1, digitsToNat d2)
    | _ => none

/-- One iteration of the token loop of `parse_page_range` (source lines
21–39): strip the part, skip empty parts, try the range regex (swapping the
endpoints when reversed), fall back to a single positive integer, silently
skip everything else. -/
def tokenStep (acc : List Int) (part : String) : List Int :=
  let part := pyStrip part
  if part = "" then acc
  else
    match matchRange part with
    | some (a, b) =>
      let lo : Nat := if a > b then b else a
      let hi : Nat := if a > b then a else b
      setUpdate acc (pyRange (lo : Int) ((hi : Int) + 1))
    | none =>
      match pyInt part with
      | some v => if 0 < v then setAdd acc v else acc
      | none => acc

/-- The token loop of `parse_page_range` (source lines 20–39): accumulate the
`pages` set over the comma-separated parts. -/
def tokensFold (parts : List String) (acc : List Int) : List Int :=
  parts.foldl tokenStep acc

/-- The final filter of `parse_page_range` (source line 40):
`p > 0 and (not total_pages or p <= total_pages)`. -/
def codeKeep (total : Option Int) (p : Int) : Bool :=
  decide (0 < p) && (pyFalsy total || decide (p ≤ total.getD 0))

/-- `parse_page_range(text, total_pages)` from src/utils/range_parse.py.
`.error` carries `str(e)` of the raised `ValueError`. -/
def parse_page_range (text : String) (total_pages : Option Int) : Except String (List Int) :=
  let text := pyStripLower text
  if text = "all" ∨ text = "*" then
    if pyFalsy total_pages then Except.error "Total pages required for 'all'"
    else Except.ok (pyRange 1 (total_pages.getD 0 + 1))
  else
    let pages := tokensFold (pySplitComma text) []
    let result := pySorted (pages.filter (codeKeep total_pages))
    if result = [] then Except.error "No valid pages selected" else Except.ok result

/-! Spec-side formulation of the parser result (claims C6/C7): the union of the
page lists of all valid tokens, filtered, deduplicated, ascending. -/

/-- Pages contributed by a single token, per the spec's description: an
inclusive range `"<a>-<b>"` (endpoints auto-swapped) or a single positive
integer; empty, non-numeric and non-positive tokens contribute nothing. -/
def tokenPages (tok : String) : List Int :=
  let tok := pyStrip tok
  if tok = "" then []
  else
    match matchRange tok with
    | some (a, b) =>
      let lo : Nat := if a > b then b else a
      let hi : Nat := if a > b then a else b
      pyRange (lo : Int) ((hi : Int) + 1)
    | none =>
      match pyInt tok with
      | some v => if 0 < v then [v] else []
      | none => []

/-- Claim C6's filter, read literally: `1 ≤ p ≤ total_pages` applied exactly
when a bound is given, no filtering otherwise. -/
def specKeepLiteral (total : Option Int) (p : Int) : Bool :=
  match total with
  | none => true
  | some t => decide (1 ≤ p) && decide (p ≤ t)

/-- Claim C6 as literally stated: split on commas, collect the union of all
valid tokens' pages, filter per `specKeepLiteral`, deduplicate, sort
ascending. -/
def specPagesLiteral (text : String) (total : Option Int) : List Int :=
  pySorted ((setUpdate [] (((pySplitComma (pyStripLower text)).flatMap tokenPages))).filter
    (specKeepLiteral total))

/-- The filter the code actually applies, spec-side: pages below 1 are always
dropped, and the upper bound applies exactly when `total_pages` is truthy
(neither `None` nor `0`). -/
def specKeep (total : Option Int) (p : Int) : Bool :=
  decide (1 ≤ p) &&
    (match total with
     | none => true
     | some t => if t = 0 then true else decide (p ≤ t))

/-- Amended spec-side result of the parser on the token path: union of all
valid tokens' pages, filtered per `specKeep`, deduplicated, ascending. -/
def specPages (text : String) (total : Option Int) : List Int :=
  pySorted ((setUpdate [] (((pySplitComma (pyStripLower text)).flatMap tokenPages))).filter
    (specKeep total))

/-! ### src/mistral_client.py — `_fix_markdown_line_breaks`, default branch

With `parse_structured_md=False` (the only variant the OCR pipeline uses), the
function is `re.sub(r'(?<!  )(?<!\n)\n(?!\n)', '  \n', s)`: every newline that
is not already preceded by a two-space hard break, not preceded by a newline,
and not followed by a newline, gets two spaces inserted before it.  Matches
are single characters and lookarounds inspect the original string, so the
substitution is a left-to-right scan with two characters of input context. -/

/-- One scan step context: `p2`/`p1` are the two input characters before the
current position (`none` past the start of the string); the match condition of
the regex `(?<!  )(?<!\n)\n(?!\n)` for a `\n` at the current position. -/
def hardBreakHere (p2 p1 : Option Char) (next : Option Char) : Prop :=
  ¬(p2 = some ' ' ∧ p1 = some ' ') ∧ p1 ≠ some '\n' ∧ next ≠ some '\n'

instance (p2 p1 next : Option Char) : Decidable (hardBreakHere p2 p1 next) := by
  unfold hardBreakHere
  exact inferInstance

/-- The substitution scan over the character list. -/
def fixAux : Option Char → Option Char → List Char → List Char
  | _, _, [] => []
  | p2, p1, c :: rest =>
    if c = '\n' ∧ hardBreakHere p2 p1 rest.head? then
      ' ' :: ' ' :: '\n' :: fixAux p1 (some c) rest
    else
      c :: fixAux p1 (some c) rest

/-- `_fix_markdown_line_breaks(s)` with `parse_structured_md=False` — the
variant applied to every OCR result (mistral_client.py lines 149–157). -/
def fix_markdown_line_breaks (s : String) : String :=
  ⟨fixAux none none s.data⟩

/-! ### src/ui/main_panes.py — the OCR background worker `_do_ocr`

The worker's two backend calls (`ocr_pdf_pages_markdown`, `ocr_image_markdown`)
are modelled as oracles indexed by a call counter, so that the number of
backend invocations a worker performs is part of the model: each call consumes
one counter tick.  An oracle answering `.error e` models the Python call
raising an exception with `str(e) = e`. -/

/-- One entry of the `ocr_jobs` registry dict. -/
structure OcrJob where
  status : String
  cancel : Bool
  error : Option String
  result : Option String
  pages : Option Nat
deriving DecidableEq, Repr

/-- The dict `{"status": "error", "cancel": False, "error": str(e)}` that the
worker's `except` clause stores (the `result`/`pages` keys are absent). -/
def ocrErrorEntry (e : String) : OcrJob :=
  { status := "error", cancel := false, error := some e, result := none, pages := none }

/-- The fresh entry created when an OCR job is launched. -/
def ocrFreshEntry : OcrJob :=
  { status := "running", cancel := false, error := none, result := none, pages := none }

/-- `idx = max(1, min(expect_page, pages_len)) - 1` (main_panes.py line 259). -/
def clampIdx (expect_page : Int) (pages_len : Nat) : Int :=
  max 1 (min expect_page (pages_len : Int)) - 1

/-- `_do_ocr(pdf, file_bytes, expect_page, ...)` (main_panes.py lines 254–271;
the closures at 254, 314, 431 and 491 are textually identical).  The input
`entry` is the registry entry as read at the worker's single cancel check;
the returned entry is what the worker stores back; the returned `Nat` is the
advanced backend-call counter.  Totality of this function models that no
exception escapes the worker: the `except` clause converts any backend
exception into an `error` entry.  A `pages_md[idx]` index error would also be
caught by the same `except`; the `none` case of the lookup models it (proved
unreachable in C8). -/
def do_ocr (backendPdf : Nat → Except String (List String))
    (backendImg : Nat → Except String String)
    (pdf : Bool) (expect_page : Int) (entry : OcrJob) (calls : Nat) : OcrJob × Nat :=
  if pdf then
    match backendPdf calls with
    | Except.error e => (ocrErrorEntry e, calls + 1)
    | Except.ok pages_md =>
      let pages_len : Nat := if pages_md.length = 0 then 1 else pages_md.length
      let idx : Int := clampIdx expect_page pages_len
      match (if pages_md = [] then some "" else pages_md.get? idx.toNat) with
      | none => (ocrErrorEntry "list index out of range", calls + 1)
      | some md =>
        if entry.cancel then ({ entry with status := "cancelled" }, calls + 1)
        else ({ entry with result := some md, pages := some pages_len, status := "done" },
              calls + 1)
  else
    match backendImg calls with
    | Except.error e => (ocrErrorEntry e, calls + 1)
    | Except.ok md =>
      if entry.cancel then ({ entry with status := "cancelled" }, calls + 1)
      else ({ entry with result := some md, pages := some 1, status := "done" }, calls + 1)

/-! ### src/services/state.py -/

/-- `OcrEntry` (timestamp omitted: no claim mentions it). -/
structure OcrEntry where
  markdown : String
  source : String
deriving DecidableEq, Repr

/-- `ExportedItem` (uuid / timestamp omitted: no claim depends on them). -/
structure ExportedItem where
  name : String
  format : String
  content : Option String
deriving DecidableEq, Repr

/-- `SessionFile` from src/services/state.py. -/
structure SessionFile where
  file_id : String
  name : String
  bytesV : String
  is_pdf : Bool
  num_pages : Int
  current_page : Int
  ocr_cache : List (Int × OcrEntry)
  raw_edits : List (Int × String)
  ui : List (String × Bool)
deriving DecidableEq, Repr

/-- `SessionFile.copy`: field-by-field shallow copy (dict `.copy()` on the
three dict-valued fields yields an equal dict). -/
def SessionFile.copy (f : SessionFile) : SessionFile :=
  { file_id := f.file_id
    name := f.name
    bytesV := f.bytesV
    is_pdf := f.is_pdf
    num_pages := f.num_pages
    current_page := f.current_page
    ocr_cache := f.ocr_cache
    raw_edits := f.raw_edits
    ui := f.ui }

/-- `Session` from src/services/state.py; `exports` is the export history
(dict keyed by uuid, modelled as an insertion-ordered list). -/
structure Session where
  id : String
  title : String
  files : List (String × SessionFile)
  active_file_id : Option String
  ui : List (String × Bool)
  exports : List ExportedItem
deriving DecidableEq, Repr

/-- `duplicate_session` (state.py lines 76–87): builds the copy; the `exports`
field is not passed to the constructor, so it takes its default `{}`. -/
def duplicate_session (s : Session) (new_sid : String) : Session :=
  { id := new_sid
    title := s.title ++ " (copy)"
    files := s.files.map (fun kv => (kv.1, kv.2.copy))
    active_file_id := s.active_file_id
    ui := s.ui
    exports := [] }

/-! ### Association-list helpers (Python dict operations) -/

/-- `d.get(k)` on an association list. -/
def lookupA {α : Type} : List (String × α) → String → Option α
  | [], _ => none
  | (k', v) :: rest, k => if k' = k then some v else lookupA rest k

/-- `d[k] = v`: replace in place if present, else append. -/
def setAssoc {α : Type} : List (String × α) → String → α → List (String × α)
  | [], k, v => [(k, v)]
  | (k', v') :: rest, k, v =>
    if k' = k then (k, v) :: rest else (k', v') :: setAssoc rest k v

/-- Integer-keyed `d.get(k)`. -/
def lookupI {α : Type} : List (Int × α) → Int → Option α
  | [], _ => none
  | (k', v) :: rest, k => if k' = k then some v else lookupI rest k

/-! ### src/ui/main_panes.py — OCR job launch guard (lines 250–252 / 427–429)

`job = ocr_jobs.get(job_id); if not job: ocr_jobs[job_id] = {...}; submit(...)`.
Every stored entry is a non-empty dict, hence truthy, so `not job` is exactly
"no entry for the key".  The returned `Bool` records whether a worker was
submitted to the executor. -/
def maybeStartOcr (ocr_jobs : List (String × OcrJob)) (job_id : String) :
    List (String × OcrJob) × Bool :=
  match lookupA ocr_jobs job_id with
  | some _ => (ocr_jobs, false)
  | none => (setAssoc ocr_jobs job_id ocrFreshEntry, true)

/-! ### src/services/exporter.py

`ExportJob` from state.py; the mutable `cancel_flag` field is not a model
field — it is the cross-thread flag modelled by the read schedule
`flag : Nat → Bool` (see the header comment). -/

structure ExportJob where
  session_id : String
  format : String
  status : String
  progress : Nat
  stage : String
  output_name : String
  output_bytes : Option String
  error : Option String
deriving DecidableEq, Repr

/-- `get_active_file` fallback: pick the first file of the dict and record it
as active (state.py lines 140–143). -/
def getFirstFile (s : Session) : Option SessionFile × Session :=
  match s.files with
  | [] => (none, s)
  | (fid, f) :: _ => (some f, { s with active_file_id := some fid })

/-- `get_active_file(session)` (state.py lines 137–144).  `if
session.active_file_id` is a truthiness test, so the empty string also falls
through to the first-file branch.  Returns the possibly-mutated session. -/
def get_active_file (s : Session) : Option SessionFile × Session :=
  match s.active_file_id with
  | some fid =>
    if fid ≠ "" then
      match lookupA s.files fid with
      | some f => (some f, s)
      | none => getFirstFile s
    else getFirstFile s
  | none => getFirstFile s

/-- Result of the synchronous part of `start_export_job`: the fresh job, the
updated `st.session_state["jobs"]` dict, the updated sessions dict, and the
`session` / `session_file` objects captured by the `_run` closure. -/
structure StartOut where
  job : ExportJob
  jobs : List (String × ExportJob)
  sessions : List (String × Session)
  sessionV : Session
  jobFile : SessionFile
deriving DecidableEq, Repr

/-- Synchronous part of `start_export_job` (exporter.py lines 214–223, 341):
everything that runs on the caller's thread before `executor.submit(_run)`
returns.  `.error` is the `str(e)` of an exception the caller sees. -/
def start_export_job (sessions : List (String × Session))
    (jobs : List (String × ExportJob)) (session_id range_text fmt : String) :
    Except String StartOut :=
  match lookupA sessions session_id with
  | none => Except.error "KeyError"
  | some session =>
    match get_active_file session with
    | (none, _) => Except.error "No active file to export"
    | (some session_file, session') =>
      let job : ExportJob :=
        { session_id := session_id, format := fmt, status := "queued", progress := 0,
          stage := "queued", output_name := "", output_bytes := none, error := none }
      Except.ok
        { job := job
          jobs := setAssoc jobs session_id job
          sessions := setAssoc sessions session_id session'
          sessionV := session'
          jobFile := session_file }

/-- `range_text` is unused by the model beyond `_run`; kept for faithfulness
of the page lookup chain: `raw_edits.get(p)` else `ocr_cache[p].markdown`
else `""` (exporter.py lines 122–126, including the final `md or ""`). -/
def pageMd (f : SessionFile) (p : Int) : String :=
  match lookupI f.raw_edits p with
  | some m => m
  | none =>
    match lookupI f.ocr_cache p with
    | some entry => entry.markdown
    | none => ""

/-- Output of `_collect_pages_markdown`: collected page markdowns, the job
record as mutated (progress/stage), the advanced flag-read counter, and the
accumulated "a cancel-flag read observed `true`" bit. -/
structure Collected where
  mds : List String
  job : ExportJob
  t : Nat
  obs : Bool
deriving Repr

/-- Loop of `_collect_pages_markdown` (exporter.py lines 120–129): one
progress update and one cancel-flag read per page; on a `true` read the loop
breaks after appending the current page. -/
def collectAux (flag : Nat → Bool) (f : SessionFile) (n : Nat) :
    List Int → Nat → ExportJob → Nat → Bool → Collected
  | [], _, job, t, obs => ⟨[], job, t, obs⟩
  | p :: rest, i, job, t, obs =>
    let md := pageMd f p
    let job := { job with progress := 10 + 40 * i / max 1 n }
    if flag t then ⟨[md], job, t + 1, true⟩
    else
      let r := collectAux flag f n rest (i + 1) job (t + 1) obs
      ⟨md :: r.mds, r.job, r.t, r.obs⟩

/-- `_collect_pages_markdown(session_file, page_numbers, job)` (exporter.py
lines 118–130); progress arithmetic uses integer division in place of the
source's float-then-int truncation (no claim depends on progress values). -/
def collectPages (flag : Nat → Bool) (f : SessionFile) (ps : List Int)
    (job : ExportJob) (t : Nat) (obs : Bool) : Collected :=
  collectAux flag f ps.length ps 1 { job with stage := "Collecting pages" } t obs

/-- Markdown cell content for one page of the HTML export
(exporter.py lines 140–150). -/
def cellContent (is_pdf : Bool) (idx : Nat) (p : Int) (md : String) : String :=
  if is_pdf then
    if idx > 1 then "---\n\n# Page " ++ toString p ++ "\n\n" ++ md
    else "# Page " ++ toString p ++ "\n\n" ++ md
  else md

/-- Output of the HTML cell loop: `none` cells means the loop returned `b""`
on a cancel-flag read. -/
structure CellsOut where
  cells : Option (List String)
  job : ExportJob
  t : Nat
  obs : Bool
deriving Repr

/-- Cell loop of `_build_html_document` (exporter.py lines 139–153): one
progress update and one cancel-flag read per cell, aborting with `b""` on a
`true` read. -/
def cellsAux (flag : Nat → Bool) (is_pdf : Bool) (n : Nat) :
    List (String × Int) → Nat → ExportJob → Nat → Bool → CellsOut
  | [], _, job, t, obs => ⟨some [], job, t, obs⟩
  | (md, p) :: rest, idx, job, t, obs =>
    let cell := cellContent is_pdf idx p md
    let job := { job with progress := 50 + 30 * idx / max 1 n }
    if flag t then ⟨none, job, t + 1, true⟩
    else
      let r := cellsAux flag is_pdf n rest (idx + 1) job (t + 1) obs
      ⟨r.cells.map (cell :: ·), r.job, r.t, r.obs⟩

/-- Output of `_build_html_document`: the HTML bytes (as a string). -/
structure HtmlOut where
  out : String
  job : ExportJob
  t : Nat
  obs : Bool
deriving Repr

/-- `_build_html_document(session, session_file, page_numbers, job)`
(exporter.py lines 133–162); `htmlRender` abstracts the
notebook-to-HTML conversion (`new_notebook` + `HTMLExporter`). -/
def buildHtml (flag : Nat → Bool) (htmlRender : List String → String)
    (f : SessionFile) (pages : List Int) (job : ExportJob) (t : Nat) (obs : Bool) : HtmlOut :=
  let c := collectPages flag f pages { job with stage := "Rendering HTML" } t obs
  let z := cellsAux flag f.is_pdf c.mds.length (c.mds.zip pages) 1 c.job c.t c.obs
  match z.cells with
  | none => ⟨"", z.job, z.t, z.obs⟩
  | some cells => ⟨htmlRender cells, z.job, z.t, z.obs⟩

/-- Combined markdown handed to the PDF backend
(`_markdown_to_pdf_bytes`, exporter.py lines 170–178). -/
def combinedForPdf (mds : List String) (ps : List Int) (is_pdf_input : Bool) : String :=
  if is_pdf_input then
    String.intercalate "\n\n---\n\n"
      ((mds.zip ps).map (fun x => "# Page " ++ toString x.2 ++ "\n\n" ++ x.1))
  else String.intercalate "\n\n---\n\n" mds

/-- Combined markdown of the markdown-format export
(exporter.py lines 295–302). -/
def combinedForMd (mds : List String) (ps : List Int) (is_pdf_input : Bool) : String :=
  String.intercalate "\n\n"
    ((mds.zip ps).map
      (fun x => if is_pdf_input then "# Page " ++ toString x.2 ++ "\n\n" ++ x.1 ++ "\n" else x.1))

/-- `f"{session.title.replace(' ', '_')}_{timestamp}.{ext}"` — the fallback
output name; `nowStr` abstracts `datetime.now().strftime(...)`. -/
def fallbackName (title nowStr ext : String) : String :=
  title.replace " " "_" ++ "_" ++ nowStr ++ "." ++ ext

/-- `if smart_name: ... else fallback` (truthiness: `None` and `""` both fall
back). -/
def chooseName (sn : Option String) (fb : String) (ext : String) : String :=
  match sn with
  | some n => if n = "" then fb else n ++ "." ++ ext
  | none => fb

/-- Result of a `_run` execution: the final job record, the (possibly
mutated) session object, the advanced flag-read counter, and whether any
cancel-flag read observed `true`. -/
structure RunOut where
  job : ExportJob
  session : Session
  t : Nat
  obs : Bool
deriving Repr

/-- The shared tail of `_run` (exporter.py lines 318–336): final cancel-flag
read; on `False`, mark the job done and append the `ExportedItem` to
`session.exports` — on the worker thread. -/
def finishRun (flag : Nat → Bool) (fmt : String) (session : Session)
    (job : ExportJob) (t : Nat) (obs : Bool) : RunOut :=
  if flag t then ⟨{ job with status := "cancelled" }, session, t + 1, true⟩
  else
    let job := { job with progress := 100, stage := "Ready", status := "done" }
    let item : ExportedItem :=
      { name := job.output_name, format := fmt, content := job.output_bytes }
    ⟨job, { session with exports := session.exports ++ [item] }, t + 1, obs⟩

/-- The worker closure `_run` of `start_export_job` (exporter.py lines
225–339).  Oracles: `md2pdf` abstracts `_markdown_to_pdf_bytes` (combined
markdown to PDF bytes, `.error` = raised exception caught by the inner
`except` at line 265); `htmlRender` the notebook-to-HTML conversion;
`smartName` abstracts `_generate_filename_with_openai` (which swallows its
own exceptions and returns `None`); `nowStr` the timestamp.  `session` and
`session_file` are the objects captured by the closure; `job0` the job record
created by the synchronous part; `t0` the flag-read counter at worker start.
Totality models the outer `except` (line 337): no exception escapes. -/
def runExport (flag : Nat → Bool) (md2pdf : String → Except String String)
    (htmlRender : List String → String) (smartName : String → Option String)
    (nowStr : String) (session : Session) (session_file : SessionFile)
    (range_text fmt : String) (job0 : ExportJob) (t0 : Nat) : RunOut :=
  let job := { job0 with status := "running" }
  let target_file := (lookupA session.files session_file.file_id).getD session_file
  let total_pages : Int := if target_file.num_pages = 0 then 1 else target_file.num_pages
  match
    (if pyStripLower range_text ≠ "all"
     then parse_page_range range_text (some total_pages)
     else Except.ok (pyRange 1 (total_pages + 1))) with
  | Except.error e => ⟨{ job with error := some e, status := "error" }, session, t0, false⟩
  | Except.ok pages =>
    if pages = [] then
      ⟨{ job with error := some "No pages to export", status := "error" }, session, t0, false⟩
    else if flag t0 then ⟨{ job with status := "cancelled" }, session, t0 + 1, true⟩
    else if fmt = "pdf" then
      let c := collectPages flag target_file pages { job with stage := "Converting to PDF" }
        (t0 + 1) false
      if flag c.t then ⟨{ c.job with status := "cancelled" }, session, c.t + 1, true⟩
      else
        match md2pdf (combinedForPdf c.mds pages target_file.is_pdf) with
        | Except.error e =>
          ⟨{ c.job with error := some e, status := "error" }, session, c.t + 1, c.obs⟩
        | Except.ok pdf_bytes =>
          let content := (String.intercalate "\n\n" c.mds).take 8000
          let name := chooseName (smartName content)
            (fallbackName session.title nowStr "pdf") "pdf"
          finishRun flag fmt session
            { c.job with output_bytes := some pdf_bytes, stage := "Generating filename",
                         output_name := name }
            (c.t + 1) c.obs
    else if fmt = "html" then
      let b := buildHtml flag htmlRender target_file pages job (t0 + 1) false
      if flag b.t then ⟨{ b.job with status := "cancelled" }, session, b.t + 1, true⟩
      else
        let c := collectPages flag target_file pages
          { b.job with output_bytes := some b.out, stage := "Generating filename" }
          (b.t + 1) b.obs
        let content := (String.intercalate "\n\n" c.mds).take 8000
        let name := chooseName (smartName content)
          (fallbackName session.title nowStr "html") "html"
        finishRun flag fmt session { c.job with output_name := name } c.t c.obs
    else
      let c := collectPages flag target_file pages { job with stage := "Preparing Markdown" }
        (t0 + 1) false
      let content := (String.intercalate "\n\n" c.mds).take 8000
      let name := chooseName (smartName content) (fallbackName session.title nowStr "md") "md"
      finishRun flag fmt session
        { c.job with output_bytes := some (combinedForMd c.mds pages target_file.is_pdf),
                     stage := "Generating filename", output_name := name }
        c.t c.obs

/-- Monotone flag schedule: the UI only ever sets the cooperative cancel flag
(`cancel_export_job`), never clears it, so a read observing `true` is followed
only by reads observing `true`. -/
def FlagMono (flag : Nat → Bool) : Prop :=
  ∀ i j, i ≤ j → flag i = true → flag j = true

/-! ## Theorems -/

instance exceptDecEq {ε α : Type} [DecidableEq ε] [DecidableEq α] :
    DecidableEq (Except ε α) := fun x y =>
  match x, y with
  | Except.ok a, Except.ok b =>
    if h : a = b then Decidable.isTrue (h ▸ rfl)
    else Decidable.isFalse (fun hc => h (Except.ok.inj hc))
  | Except.error a, Except.error b =>
    if h : a = b then Decidable.isTrue (h ▸ rfl)
    else Decidable.isFalse (fun hc => h (Except.error.inj hc))
  | Except.ok _, Except.error _ => Decidable.isFalse (fun hc => Except.noConfusion hc)
  | Except.error _, Except.ok _ => Decidable.isFalse (fun hc => Except.noConfusion hc)

/-! ### Python-set model lemmas -/

lemma mem_setAdd {acc : List Int} {v x : Int} : x ∈ setAdd acc v ↔ x ∈ acc ∨ x = v := by
  unfold setAdd
  split_ifs with h
  · constructor
    · exact Or.inl
    · rintro (hx | rfl)
      · exact hx
      · exact h
  · simp

lemma nodup_setAdd {acc : List Int} {v : Int} (hn : acc.Nodup) : (setAdd acc v).Nodup := by
  unfold setAdd
  split_ifs with h
  · exact hn
  · simp [List.nodup_append, hn, h]

lemma mem_setUpdate : ∀ (l acc : List Int) (x : Int),
    x ∈ setUpdate acc l ↔ x ∈ acc ∨ x ∈ l := by
  intro l
  induction l with
  | nil => intro acc x; simp [setUpdate]
  | cons y ys ih =>
    intro acc x
    have h1 : setUpdate acc (y :: ys) = setUpdate (setAdd acc y) ys := rfl
    rw [h1, ih, mem_setAdd]
    simp only [List.mem_cons]
    tauto

lemma nodup_setUpdate : ∀ (l acc : List Int), acc.Nodup → (setUpdate acc l).Nodup := by
  intro l
  induction l with
  | nil => intro acc h; exact h
  | cons y ys ih =>
    intro acc h
    exact ih (setAdd acc y) (nodup_setAdd h)

/-! ### Token loop lemmas -/

lemma mem_tokenStep (acc : List Int) (part : String) (x : Int) :
    x ∈ tokenStep acc part ↔ x ∈ acc ∨ x ∈ tokenPages part := by
  unfold tokenStep tokenPages
  by_cases hs : pyStrip part = ""
  · simp [hs]
  · simp only [if_neg hs]
    cases hm : matchRange (pyStrip part) with
    | some ab =>
      obtain ⟨a, b⟩ := ab
      simp [mem_setUpdate]
    | none =>
      cases hi : pyInt (pyStrip part) with
      | some v =>
        by_cases hv : 0 < v
        · simp [hv, mem_setAdd]
        · simp [hv]
      | none => simp

lemma nodup_tokenStep (acc : List Int) (part : String) (h : acc.Nodup) :
    (tokenStep acc part).Nodup := by
  unfold tokenStep
  by_cases hs : pyStrip part = ""
  · simpa [hs]
  · simp only [if_neg hs]
    cases hm : matchRange (pyStrip part) with
    | some ab =>
      obtain ⟨a, b⟩ := ab
      exact nodup_setUpdate _ _ h
    | none =>
      cases hi : pyInt (pyStrip part) with
      | some v =>
        by_cases hv : 0 < v
        · simp only [if_pos hv]
          exact nodup_setAdd h
        · simpa [hv]
      | none => simpa

lemma mem_tokensFold : ∀ (toks : List String) (acc : List Int) (x : Int),
    x ∈ tokensFold toks acc ↔ x ∈ acc ∨ x ∈ toks.flatMap tokenPages := by
  intro toks
  induction toks with
  | nil => intro acc x; simp [tokensFold]
  | cons part rest ih =>
    intro acc x
    have h1 : tokensFold (part :: rest) acc = tokensFold rest (tokenStep acc part) := rfl
    rw [h1, ih, mem_tokenStep]
    simp only [List.flatMap_cons, List.mem_append]
    tauto

lemma nodup_tokensFold : ∀ (toks : List String) (acc : List Int), acc.Nodup →
    (tokensFold toks acc).Nodup := by
  intro toks
  induction toks with
  | nil => intro acc h; exact h
  | cons part rest ih =>
    intro acc h
    exact ih (tokenStep acc part) (nodup_tokenStep acc part h)

/-! ### Sorting lemmas -/

lemma pySorted_eq_of_perm {l₁ l₂ : List Int} (h : l₁.Perm l₂) :
    pySorted l₁ = pySorted l₂ := by
  unfold pySorted
  exact List.eq_of_perm_of_sorted
    ((List.perm_insertionSort _ l₁).trans (h.trans (List.perm_insertionSort _ l₂).symm))
    (List.sorted_insertionSort _ l₁) (List.sorted_insertionSort _ l₂)

/-! ### Filter agreement -/

lemma codeKeep_eq_specKeep (total : Option Int) (p : Int) :
    codeKeep total p = specKeep total p := by
  have h01 : decide (0 < p) = decide (1 ≤ p) :=
    decide_eq_decide.mpr (by rw [Int.lt_iff_add_one_le, zero_add])
  cases total with
  | none =>
    simp only [codeKeep, specKeep, pyFalsy, Bool.true_or, Bool.and_true, h01]
  | some t =>
    by_cases ht : t = 0
    · subst ht
      simp only [codeKeep, specKeep, pyFalsy, h01]
      norm_num
    · have hbe : (t == 0) = false := by simpa using ht
      simp only [codeKeep, specKeep, pyFalsy, if_neg ht, Option.getD_some, hbe,
        Bool.false_or, h01]

/-- On the token path (input not `"all"`/`"*"` after strip+lower), the code's
result set agrees with the spec-side `specPages`. -/
lemma parse_eq_specPages (text : String) (total : Option Int)
    (h : ¬(pyStripLower text = "all" ∨ pyStripLower text = "*")) :
    parse_page_range text total =
      if specPages text total = [] then Except.error "No valid pages selected"
      else Except.ok (specPages text total) := by
  have hperm :
      ((tokensFold (pySplitComma (pyStripLower text)) []).filter (codeKeep total)).Perm
        ((setUpdate [] ((pySplitComma (pyStripLower text)).flatMap tokenPages)).filter
          (specKeep total)) := by
    have hfun : codeKeep total = specKeep total := funext (codeKeep_eq_specKeep total)
    rw [hfun]
    apply List.Perm.filter
    apply (List.perm_ext_iff_of_nodup (nodup_tokensFold _ _ List.nodup_nil)
      (nodup_setUpdate _ _ List.nodup_nil)).mpr
    intro a
    rw [mem_tokensFold, mem_setUpdate]
  have hres :
      pySorted ((tokensFold (pySplitComma (pyStripLower text)) []).filter (codeKeep total))
        = specPages text total := by
    unfold specPages
    exact pySorted_eq_of_perm hperm
  unfold parse_page_range
  simp only [if_neg h]
  rw [hres]

/-! ### Claim C6 -/

/-- C6, counterexample to the literal claim: on `"0-3"` with no bound the
claim's formula ("union of all valid tokens, filtered to `1 ≤ p ≤ total_pages`
when a bound is given") yields `[0, 1, 2, 3]`, but `parse_page_range` always
drops non-positive pages and returns `[1, 2, 3]`. -/
theorem C6_counterexample :
    parse_page_range "0-3" none = Except.ok [1, 2, 3] ∧
      specPagesLiteral "0-3" none = [0, 1, 2, 3] ∧
      parse_page_range "0-3" none ≠ Except.ok (specPagesLiteral "0-3" none) := by
  refine ⟨by decide, by decide, by decide⟩

/-- C6 (amended): `parse_page_range` splits on commas, reads each token as an
inclusive `"<a>-<b>"` range (endpoints swapped when reversed) or a single
positive integer, silently skips malformed tokens, and — on the token path,
when at least one page survives — returns the union of the tokens' pages with
pages `< 1` always dropped and the upper bound applied exactly when
`total_pages` is truthy (neither `None` nor `0`), deduplicated, ascending;
the claim's worked example `parse("0, -1, 2-1, 100", total_pages=5) = [1,2]`
holds. -/
theorem C6_parse_token_union :
    parse_page_range "0, -1, 2-1, 100" (some 5) = Except.ok [1, 2] ∧
      ∀ (text : String) (total : Option Int),
        pyStripLower text ≠ "all" → pyStripLower text ≠ "*" →
        specPages text total ≠ [] →
        parse_page_range text total = Except.ok (specPages text total) := by
  refine ⟨by decide, ?_⟩
  intro text total hAll hStar hne
  rw [parse_eq_specPages text total (by tauto), if_neg hne]

/-- Witness for C6: concrete instantiation of the amended theorem. -/
theorem C6_parse_token_union_witness :
    parse_page_range "2-4, 9" (some 5) = Except.ok (specPages "2-4, 9" (some 5)) :=
  C6_parse_token_union.2 "2-4, 9" (some 5) (by decide) (by decide) (by decide)

/-! ### Claim C7 -/

/-- C7, counterexample: with `total_pages = 0` — a *known* bound — the input
`"all"` does not expand to `[1..0] = []`; the code raises the "total pages
required" error, because the truthiness test `not total_pages` treats `0` like
`None`. -/
theorem C7_counterexample :
    parse_page_range "all" (some 0) = Except.error "Total pages required for 'all'" ∧
      (some 0 : Option Int) ≠ none := by
  refine ⟨by decide, by decide⟩

/-- C7 (amended): complete characterization of `parse_page_range`.  It fails
exactly in two cases: with `ValueError("Total pages required for 'all'")`
(the spec's `ConfigError`) when the trimmed, lowercased input is `"all"` or
`"*"` and `total_pages` is falsy (`None` **or** `0`), and with
`ValueError("No valid pages selected")` (the spec's `EmptySelectionError`)
when, on the token path, the filtered result is empty; otherwise it returns
normally — `[1..total_pages]` for `"all"`/`"*"`, the filtered token union
(`specPages`) otherwise. -/
theorem C7_failure_modes : ∀ (text : String) (total : Option Int),
    parse_page_range text total =
      if pyStripLower text = "all" ∨ pyStripLower text = "*" then
        (if pyFalsy total then Except.error "Total pages required for 'all'"
         else Except.ok (pyRange 1 (total.getD 0 + 1)))
      else if specPages text total = [] then Except.error "No valid pages selected"
      else Except.ok (specPages text total) := by
  intro text total
  by_cases h : pyStripLower text = "all" ∨ pyStripLower text = "*"
  · rw [if_pos h]
    unfold parse_page_range
    rw [if_pos h]
  · rw [if_neg h]
    exact parse_eq_specPages text total h

/-! ### Claim C10 -/

/-- C10: `duplicate_session` copies the file map, UI flags, active file id and
(suffixed) title from the source, but its export history is empty whatever
the source's export history was — the `exports` argument is simply never
passed to the `Session` constructor. -/
theorem C10_duplicate_session_fresh_exports : ∀ (s : Session) (new_sid : String),
    (duplicate_session s new_sid).exports = [] ∧
      (duplicate_session s new_sid).files = s.files ∧
      (duplicate_session s new_sid).ui = s.ui ∧
      (duplicate_session s new_sid).active_file_id = s.active_file_id ∧
      (duplicate_session s new_sid).title = s.title ++ " (copy)" ∧
      (duplicate_session s new_sid).id = new_sid := by
  intro s new_sid
  refine ⟨rfl, ?_, rfl, rfl, rfl, rfl⟩
  show s.files.map (fun kv => (kv.1, kv.2.copy)) = s.files
  have hcopy : (fun kv : String × SessionFile => (kv.1, kv.2.copy)) = id := by
    funext kv
    rfl
  rw [hcopy, List.map_id]

/-! ### Claim C9 — idempotence of the line-break normalizer -/

lemma fixAux_cons (p2 p1 : Option Char) (c : Char) (rest : List Char) :
    fixAux p2 p1 (c :: rest) =
      if c = '\n' ∧ hardBreakHere p2 p1 rest.head? then
        ' ' :: ' ' :: '\n' :: fixAux p1 (some c) rest
      else c :: fixAux p1 (some c) rest := rfl

/-- A newline whose predecessor (in the input) is a newline is never replaced,
so the output of the scan on `'\n' :: r` (with previous char `'\n'`) starts
with `'\n'`. -/
lemma fixAux_head_nl (p2 : Option Char) (r : List Char) :
    (fixAux p2 (some '\n') ('\n' :: r)).head? = some '\n' := by
  rw [fixAux_cons, if_neg]
  · rfl
  · intro h
    exact h.2.2.1 rfl

/-- Key invariant: re-scanning the output of the scan changes nothing, as long
as the re-scan's context `(q2, p1)` relates to the original context `(p2, p1)`
as the scan produces it: either the contexts agree, or the previous character
was a replaced newline (so the re-scan sees the inserted space as `q2`). -/
lemma fixAux_idem : ∀ (s : List Char) (p2 p1 q2 : Option Char),
    (q2 = p2 ∨ (q2 = some ' ' ∧ p1 = some '\n')) →
    fixAux q2 p1 (fixAux p2 p1 s) = fixAux p2 p1 s := by
  intro s
  induction s with
  | nil => intro p2 p1 q2 _; rfl
  | cons c rest ih =>
    intro p2 p1 q2 hq
    rw [fixAux_cons]
    by_cases hc : c = '\n' ∧ hardBreakHere p2 p1 rest.head?
    · rw [if_pos hc]
      obtain ⟨hce, _⟩ := hc
      subst hce
      rw [fixAux_cons, if_neg (fun h => absurd h.1 (by decide))]
      rw [fixAux_cons, if_neg (fun h => absurd h.1 (by decide))]
      rw [fixAux_cons, if_neg (fun h => h.2.1 ⟨rfl, rfl⟩)]
      rw [ih p1 (some '\n') (some ' ') (Or.inr ⟨rfl, rfl⟩)]
    · rw [if_neg hc]
      rw [fixAux_cons]
      have hno : ¬(c = '\n' ∧ hardBreakHere q2 p1 (fixAux p1 (some c) rest).head?) := by
        rintro ⟨hce, hA, hB, hC⟩
        subst hce
        have hnb : ¬ hardBreakHere p2 p1 rest.head? := fun hcond => hc ⟨rfl, hcond⟩
        unfold hardBreakHere at hnb
        push_neg at hnb
        by_cases h1 : p1 = some '\n'
        · exact hB h1
        · by_cases h2 : p2 = some ' ' ∧ p1 = some ' '
          · rcases hq with hq | hq
            · exact hA ⟨hq.trans h2.1, h2.2⟩
            · exact hB hq.2
          · have hhd : rest.head? = some '\n' := hnb (fun hp2 hp1 => h2 ⟨hp2, hp1⟩) h1
            cases rest with
            | nil => exact Option.noConfusion hhd
            | cons d r =>
              have hd : d = '\n' := by
                simpa using hhd
              subst hd
              exact hC (fixAux_head_nl p1 r)
      rw [if_neg hno]
      rw [ih p1 (some c) p1 (Or.inl rfl)]

/-- C9: with `parse_structured_md=False` — the variant used on every OCR
result — `_fix_markdown_line_breaks` is idempotent; moreover a newline already
preceded by a two-space hard break gets no additional break, and a
double-newline paragraph break is left untouched. -/
theorem C9_fix_markdown_idempotent :
    (∀ s : String,
        fix_markdown_line_breaks (fix_markdown_line_breaks s) = fix_markdown_line_breaks s) ∧
      fix_markdown_line_breaks "a  \nb" = "a  \nb" ∧
      fix_markdown_line_breaks "a\n\nb" = "a\n\nb" := by
  refine ⟨?_, by decide, by decide⟩
  intro s
  show (⟨fixAux none none (fixAux none none s.data)⟩ : String) = ⟨fixAux none none s.data⟩
  rw [fixAux_idem s.data none none none (Or.inl rfl)]

/-! ### Claims C5 and C8 — the OCR worker -/

lemma do_ocr_calls (bp : Nat → Except String (List String)) (bi : Nat → Except String String)
    (pdf : Bool) (p : Int) (entry : OcrJob) (calls : Nat) :
    (do_ocr bp bi pdf p entry calls).2 = calls + 1 := by
  unfold do_ocr
  cases pdf with
  | true =>
    simp only [if_true]
    cases bp calls with
    | error e => rfl
    | ok pages_md =>
      simp only []
      split
      · rfl
      · split_ifs <;> rfl
  | false =>
    simp only [Bool.false_eq_true, if_false]
    cases bi calls with
    | error e => rfl
    | ok md => split_ifs <;> rfl

/-- C8: for a PDF OCR job the worker invokes the OCR backend exactly once
(the call counter advances by one whatever happens), and — when the backend
returns a non-empty page list and the job is not cancelled — stores as the
job's result exactly the page at index
`clamp(target_page, 1, len(pages)) - 1`, an index that is always in bounds. -/
theorem C8_pdf_ocr_single_call_clamped_page :
    ∀ (bp : Nat → Except String (List String)) (bi : Nat → Except String String)
      (p : Int) (entry : OcrJob) (calls : Nat),
      (do_ocr bp bi true p entry calls).2 = calls + 1 ∧
      ∀ pages_md, bp calls = Except.ok pages_md → pages_md ≠ [] →
        entry.cancel = false →
        (clampIdx p pages_md.length).toNat < pages_md.length ∧
        (do_ocr bp bi true p entry calls).1.result =
          pages_md.get? (clampIdx p pages_md.length).toNat ∧
        (do_ocr bp bi true p entry calls).1.status = "done" ∧
        (do_ocr bp bi true p entry calls).1.pages = some pages_md.length := by
  intro bp bi p entry calls
  refine ⟨do_ocr_calls bp bi true p entry calls, ?_⟩
  intro pages_md hb hne hcanc
  have hlen : 0 < pages_md.length := List.length_pos.mpr hne
  have hlt : (clampIdx p pages_md.length).toNat < pages_md.length := by
    unfold clampIdx
    have h1 : min p (pages_md.length : Int) ≤ (pages_md.length : Int) := min_le_right _ _
    have h2 : (1 : Int) ≤ max 1 (min p (pages_md.length : Int)) := le_max_left _ _
    have h3 : max 1 (min p (pages_md.length : Int)) ≤ (pages_md.length : Int) :=
      max_le (by exact_mod_cast hlen) h1
    omega
  refine ⟨hlt, ?_⟩
  obtain ⟨md, hmd⟩ : ∃ md, pages_md.get? (clampIdx p pages_md.length).toNat = some md := by
    rw [List.get?_eq_get hlt]
    exact ⟨_, rfl⟩
  have hplen : (if pages_md.length = 0 then 1 else pages_md.length) = pages_md.length :=
    if_neg (by omega)
  have hmd' : pages_md[(clampIdx p pages_md.length).toNat]? = some md := by
    simpa [List.get?_eq_getElem?] using hmd
  unfold do_ocr
  simp [hb, if_neg hne, hplen, hmd', hcanc]

/-- Witness for C8 at a concrete backend: a two-page document, target page 5,
clamped to the last page. -/
theorem C8_pdf_ocr_single_call_clamped_page_witness :
    (do_ocr (fun _ => Except.ok ["a", "b"]) (fun _ => Except.error "x") true 5
        ocrFreshEntry 0).2 = 0 + 1 ∧
      (do_ocr (fun _ => Except.ok ["a", "b"]) (fun _ => Except.error "x") true 5
        ocrFreshEntry 0).1.result = ["a", "b"].get? (clampIdx 5 (["a", "b"]).length).toNat :=
  ⟨(C8_pdf_ocr_single_call_clamped_page (fun _ => Except.ok ["a", "b"])
      (fun _ => Except.error "x") 5 ocrFreshEntry 0).1,
   ((C8_pdf_ocr_single_call_clamped_page (fun _ => Except.ok ["a", "b"])
      (fun _ => Except.error "x") 5 ocrFreshEntry 0).2 ["a", "b"] rfl (by decide) rfl).2.1⟩

/-- C5: an exception from the backend call leaves the OCR job's registry entry
in state `"error"` with the exception's message in the `error` field (and the
`result`/`pages` keys absent), for both the PDF and the image branch; and the
worker always terminates with one of the entries `"error"`, `"cancelled"` or
`"done"` — `do_ocr` is a total function into job entries, which is how the
model renders "the exception never propagates to the initiating thread". -/
theorem C5_backend_error_captured :
    ∀ (bp : Nat → Except String (List String)) (bi : Nat → Except String String)
      (pdf : Bool) (p : Int) (entry : OcrJob) (calls : Nat) (e : String),
      ((pdf = true → bp calls = Except.error e →
          (do_ocr bp bi pdf p entry calls).1 = ocrErrorEntry e) ∧
        (pdf = false → bi calls = Except.error e →
          (do_ocr bp bi pdf p entry calls).1 = ocrErrorEntry e)) ∧
      ((do_ocr bp bi pdf p entry calls).1.status = "error" ∨
        (do_ocr bp bi pdf p entry calls).1.status = "cancelled" ∨
        (do_ocr bp bi pdf p entry calls).1.status = "done") := by
  intro bp bi pdf p entry calls e
  refine ⟨⟨?_, ?_⟩, ?_⟩
  · rintro rfl hb
    unfold do_ocr
    simp [hb]
  · rintro rfl hb
    unfold do_ocr
    simp [hb]
  · unfold do_ocr
    cases pdf with
    | true =>
      simp only [if_true]
      cases bp calls with
      | error e' => exact Or.inl rfl
      | ok pages_md =>
        simp only []
        split
        · exact Or.inl rfl
        · by_cases hcc : entry.cancel = true
          · simp [hcc]
          · simp [hcc]
    | false =>
      simp only [Bool.false_eq_true, if_false]
      cases bi calls with
      | error e' => exact Or.inl rfl
      | ok md =>
        by_cases hcc : entry.cancel = true
        · simp [hcc]
        · simp [hcc]

/-- Witness for C5: a PDF job whose backend raises. -/
theorem C5_backend_error_captured_witness :
    (do_ocr (fun _ => Except.error "boom") (fun _ => Except.ok "") true 1
        ocrFreshEntry 0).1 = ocrErrorEntry "boom" :=
  (C5_backend_error_captured (fun _ => Except.error "boom") (fun _ => Except.ok "") true 1
      ocrFreshEntry 0 "boom").1.1 rfl rfl

/-! ### Exporter worker lemmas (claims C1–C4) -/

/-- If the accumulated observation bit is set,…the flag reads `true` from time
`t` on.  This is the invariant every stage of `_run` preserves under a
monotone flag. -/
def GoodObs (flag : Nat → Bool) (t : Nat) (obs : Bool) : Prop :=
  obs = true → ∀ v, t ≤ v → flag v = true

lemma goodObs_false (flag : Nat → Bool) (t : Nat) : GoodObs flag t false :=
  fun h => nomatch h

lemma goodObs_mono (flag : Nat → Bool) {t t' : Nat} {obs : Bool}
    (h : GoodObs flag t obs) (ht : t ≤ t') : GoodObs flag t' obs :=
  fun ho v hv => h ho v (le_trans ht hv)

lemma collectAux_goodObs (flag : Nat → Bool) (f : SessionFile) (n : Nat)
    (hm : FlagMono flag) :
    ∀ (ps : List Int) (i : Nat) (job : ExportJob) (t : Nat) (obs : Bool),
      GoodObs flag t obs →
      GoodObs flag (collectAux flag f n ps i job t obs).t
        (collectAux flag f n ps i job t obs).obs := by
  intro ps
  induction ps with
  | nil => intro i job t obs hg; exact hg
  | cons p rest ih =>
    intro i job t obs hg
    by_cases hf : flag t = true
    · simp only [collectAux, hf, if_true]
      intro _ v hv
      exact hm t v (by omega) hf
    · rw [Bool.not_eq_true] at hf
      simp only [collectAux, hf, Bool.false_eq_true, if_false]
      exact ih (i + 1) _ (t + 1) obs (goodObs_mono flag hg (Nat.le_succ t))

lemma cellsAux_goodObs (flag : Nat → Bool) (is_pdf : Bool) (n : Nat)
    (hm : FlagMono flag) :
    ∀ (cs : List (String × Int)) (idx : Nat) (job : ExportJob) (t : Nat) (obs : Bool),
      GoodObs flag t obs →
      GoodObs flag (cellsAux flag is_pdf n cs idx job t obs).t
        (cellsAux flag is_pdf n cs idx job t obs).obs := by
  intro cs
  induction cs with
  | nil => intro idx job t obs hg; exact hg
  | cons c rest ih =>
    intro idx job t obs hg
    obtain ⟨md, p⟩ := c
    by_cases hf : flag t = true
    · simp only [cellsAux, hf, if_true]
      intro _ v hv
      exact hm t v (by omega) hf
    · rw [Bool.not_eq_true] at hf
      simp only [cellsAux, hf, Bool.false_eq_true, if_false]
      exact ih (idx + 1) _ (t + 1) obs (goodObs_mono flag hg (Nat.le_succ t))

lemma collectPages_goodObs (flag : Nat → Bool) (f : SessionFile) (hm : FlagMono flag)
    (ps : List Int) (job : ExportJob) (t : Nat) (obs : Bool) (hg : GoodObs flag t obs) :
    GoodObs flag (collectPages flag f ps job t obs).t (collectPages flag f ps job t obs).obs :=
  collectAux_goodObs flag f ps.length hm ps 1 _ t obs hg

lemma buildHtml_goodObs (flag : Nat → Bool) (htmlRender : List String → String)
    (f : SessionFile) (pages : List Int) (job : ExportJob) (t : Nat) (obs : Bool)
    (hm : FlagMono flag) (hg : GoodObs flag t obs) :
    GoodObs flag (buildHtml flag htmlRender f pages job t obs).t
      (buildHtml flag htmlRender f pages job t obs).obs := by
  simp only [buildHtml, collectPages]
  split
  · exact cellsAux_goodObs flag f.is_pdf _ hm _ 1 _ _ _
      (collectAux_goodObs flag f pages.length hm pages 1 _ t obs hg)
  · exact cellsAux_goodObs flag f.is_pdf _ hm _ 1 _ _ _
      (collectAux_goodObs flag f pages.length hm pages 1 _ t obs hg)

lemma finishRun_obs_cancelled (flag : Nat → Bool) (fmt : String) (session : Session)
    (job : ExportJob) (t : Nat) (obs : Bool) (hg : GoodObs flag t obs) :
    (finishRun flag fmt session job t obs).obs = true →
      (finishRun flag fmt session job t obs).job.status = "cancelled" ∧
      (finishRun flag fmt session job t obs).session = session := by
  unfold finishRun
  by_cases hf : flag t = true
  · rw [if_pos hf]
    intro _
    exact ⟨rfl, rfl⟩
  · rw [if_neg hf]
    intro h
    exact absurd (hg h t le_rfl) hf

lemma finishRun_shape (flag : Nat → Bool) (fmt : String) (session : Session)
    (job : ExportJob) (t : Nat) (obs : Bool) :
    (finishRun flag fmt session job t obs).session = session ∨
      ((finishRun flag fmt session job t obs).job.status = "done" ∧
        (finishRun flag fmt session job t obs).session =
          { session with exports := session.exports ++
              [⟨(finishRun flag fmt session job t obs).job.output_name, fmt,
                (finishRun flag fmt session job t obs).job.output_bytes⟩] }) := by
  unfold finishRun
  by_cases hf : flag t = true
  · rw [if_pos hf]
    exact Or.inl rfl
  · rw [if_neg hf]
    exact Or.inr ⟨rfl, rfl⟩

/-- Frame shape of a `_run` execution: either the session object is returned
untouched, or the job finished `done` and exactly one `ExportedItem` was
appended to the export history. -/
lemma runExport_shape (flag : Nat → Bool) (md2pdf : String → Except String String)
    (htmlRender : List String → String) (smartName : String → Option String)
    (nowStr : String) (session : Session) (sf : SessionFile)
    (range_text fmt : String) (job0 : ExportJob) (t0 : Nat) :
    (runExport flag md2pdf htmlRender smartName nowStr session sf range_text fmt job0 t0).session
        = session ∨
      ((runExport flag md2pdf htmlRender smartName nowStr session sf range_text fmt
          job0 t0).job.status = "done" ∧
        (runExport flag md2pdf htmlRender smartName nowStr session sf range_text fmt
            job0 t0).session =
          { session with exports := session.exports ++
              [⟨(runExport flag md2pdf htmlRender smartName nowStr session sf range_text fmt
                    job0 t0).job.output_name, fmt,
                (runExport flag md2pdf htmlRender smartName nowStr session sf range_text fmt
                    job0 t0).job.output_bytes⟩] }) := by
  simp only [runExport]
  split
  · exact Or.inl rfl
  · split
    · exact Or.inl rfl
    · split
      · exact Or.inl rfl
      · split
        · split
          · exact Or.inl rfl
          · split
            · exact Or.inl rfl
            · exact finishRun_shape flag fmt session _ _ _
        · split
          · split
            · exact Or.inl rfl
            · exact finishRun_shape flag fmt session _ _ _
          · exact finishRun_shape flag fmt session _ _ _

/-- If any cancel-flag read of a `_run` execution observed `true` (under a
monotone flag), the job ends `cancelled` and the session object is untouched. -/
lemma runExport_obs_cancelled (flag : Nat → Bool) (md2pdf : String → Except String String)
    (htmlRender : List String → String) (smartName : String → Option String)
    (nowStr : String) (session : Session) (sf : SessionFile)
    (range_text fmt : String) (job0 : ExportJob) (t0 : Nat) (hm : FlagMono flag) :
    (runExport flag md2pdf htmlRender smartName nowStr session sf range_text fmt
        job0 t0).obs = true →
      (runExport flag md2pdf htmlRender smartName nowStr session sf range_text fmt
          job0 t0).job.status = "cancelled" ∧
      (runExport flag md2pdf htmlRender smartName nowStr session sf range_text fmt
          job0 t0).session = session := by
  simp only [runExport]
  split
  · intro h
    simp at h
  · split
    · intro h
      simp at h
    · split
      · intro _
        exact ⟨rfl, rfl⟩
      · split
        · -- fmt = "pdf"
          split
          · intro _
            exact ⟨rfl, rfl⟩
          · rename_i hfc
            split
            · intro h
              exact absurd
                (collectPages_goodObs flag _ hm _ _ (t0 + 1) false
                  (goodObs_false flag (t0 + 1)) h _ le_rfl) hfc
            · exact finishRun_obs_cancelled flag fmt session _ _ _
                (goodObs_mono flag
                  (collectPages_goodObs flag _ hm _ _ (t0 + 1) false
                    (goodObs_false flag (t0 + 1)))
                  (Nat.le_succ _))
        · split
          · -- fmt = "html"
            split
            · intro _
              exact ⟨rfl, rfl⟩
            · exact finishRun_obs_cancelled flag fmt session _ _ _
                (collectPages_goodObs flag _ hm _ _ _ _
                  (goodObs_mono flag
                    (buildHtml_goodObs flag htmlRender _ _ _ (t0 + 1) false hm
                      (goodObs_false flag (t0 + 1)))
                    (Nat.le_succ _)))
          · -- markdown export
            exact finishRun_obs_cancelled flag fmt session _ _ _
              (collectPages_goodObs flag _ hm _ _ (t0 + 1) false
                (goodObs_false flag (t0 + 1)))

lemma lookupA_setAssoc {α : Type} (l : List (String × α)) (k : String) (v : α) :
    lookupA (setAssoc l k v) k = some v := by
  induction l with
  | nil => simp [setAssoc, lookupA]
  | cons kv rest ih =>
    obtain ⟨k', v'⟩ := kv
    by_cases hk : k' = k
    · simp [setAssoc, hk, lookupA]
    · simp [setAssoc, hk, lookupA, ih]

/-- Effective page total for a `_run` execution: the re-fetched target file's
`num_pages or 1` (exporter.py lines 228–229). -/
def effTotal (session : Session) (sf : SessionFile) : Int :=
  let tf := (lookupA session.files sf.file_id).getD sf
  if tf.num_pages = 0 then 1 else tf.num_pages

/-! ### Concrete example state shared by the exporter claims -/

/-- A two-page PDF with both pages OCR-cached. -/
def exFile : SessionFile :=
  { file_id := "f", name := "doc.pdf", bytesV := "B", is_pdf := true, num_pages := 2,
    current_page := 1, ocr_cache := [(1, ⟨"md1", "api"⟩), (2, ⟨"md2", "api"⟩)],
    raw_edits := [], ui := [] }

/-- A session owning `exFile`, with empty export history. -/
def exSession : Session :=
  { id := "s", title := "My Doc", files := [("f", exFile)], active_file_id := some "f",
    ui := [], exports := [] }

/-- The job record `start_export_job` creates for `exSession` (markdown
format). -/
def exJob : ExportJob :=
  { session_id := "s", format := "md", status := "queued", progress := 0, stage := "queued",
    output_name := "", output_bytes := none, error := none }

/-- What the synchronous part of `start_export_job` returns on `exSession`. -/
def exStartOut : StartOut :=
  { job := exJob, jobs := [("s", exJob)], sessions := [("s", exSession)],
    sessionV := exSession, jobFile := exFile }

/-! ### Claim C1 -/

/-- C1, counterexample: a successful markdown export run — executed entirely
by the worker closure `_run` — appends the completed `ExportedItem` to
`session.exports`, so the worker does write into a shared session structure,
contradicting the claim that workers mutate only their Job record. -/
theorem C1_counterexample :
    (runExport (fun _ => false) (fun s => Except.ok s) (fun _ => "") (fun _ => none) "TS"
        exSession exFile "1-2" "md" exJob 0).job.status = "done" ∧
      (runExport (fun _ => false) (fun s => Except.ok s) (fun _ => "") (fun _ => none) "TS"
          exSession exFile "1-2" "md" exJob 0).session.exports ≠ exSession.exports := by
  exact ⟨by decide, by decide⟩

/-- C1 (amended): the OCR workers mutate only their registry entry (`do_ocr`
receives and returns nothing but the job entry), and the export worker
mutates, besides its Job record, exactly one session structure: on successful
completion it appends the finished `ExportedItem` to the session's export
history from the worker thread.  Everything else in the session — title, file
map (hence every per-file OCR cache and edit buffer), active file id, UI
flags — is untouched by the worker. -/
theorem C1_worker_session_frame :
    ∀ (flag : Nat → Bool) (md2pdf : String → Except String String)
      (htmlRender : List String → String) (smartName : String → Option String)
      (nowStr : String) (session : Session) (sf : SessionFile)
      (range_text fmt : String) (job0 : ExportJob) (t0 : Nat),
      (runExport flag md2pdf htmlRender smartName nowStr session sf range_text fmt
          job0 t0).session.title = session.title ∧
      (runExport flag md2pdf htmlRender smartName nowStr session sf range_text fmt
          job0 t0).session.files = session.files ∧
      (runExport flag md2pdf htmlRender smartName nowStr session sf range_text fmt
          job0 t0).session.active_file_id = session.active_file_id ∧
      (runExport flag md2pdf htmlRender smartName nowStr session sf range_text fmt
          job0 t0).session.ui = session.ui ∧
      ((runExport flag md2pdf htmlRender smartName nowStr session sf range_text fmt
          job0 t0).session.exports = session.exports ∨
        ((runExport flag md2pdf htmlRender smartName nowStr session sf range_text fmt
            job0 t0).job.status = "done" ∧
          ∃ item, (runExport flag md2pdf htmlRender smartName nowStr session sf range_text
              fmt job0 t0).session.exports = session.exports ++ [item])) := by
  intro flag md2pdf htmlRender smartName nowStr session sf range_text fmt job0 t0
  rcases runExport_shape flag md2pdf htmlRender smartName nowStr session sf range_text fmt
      job0 t0 with h | ⟨hd, hs⟩
  · rw [h]
    exact ⟨rfl, rfl, rfl, rfl, Or.inl rfl⟩
  · rw [hs]
    exact ⟨rfl, rfl, rfl, rfl, Or.inr ⟨hd, ⟨_, rfl⟩⟩⟩

/-! ### Claim C2 -/

/-- C2, counterexample: with a `running` export job present for session key
`"s"`, `start_export_job` does not reject the duplicate start — it succeeds
and overwrites the registry entry with the fresh `queued` job. -/
theorem C2_counterexample :
    start_export_job [("s", exSession)] [("s", { exJob with status := "running" })]
        "s" "1-2" "md" = Except.ok exStartOut ∧
      lookupA exStartOut.jobs "s" = some exJob ∧
      exJob.status = "queued" ∧
      ({ exJob with status := "running" } : ExportJob).status = "running" := by
  exact ⟨by decide, by decide, rfl, rfl⟩

/-- C2 (amended): `start_export_job` never rejects a duplicate start — on
success it unconditionally overwrites the jobs-registry entry for the session
key with the fresh `queued` job, whatever was there (the UI avoids calling it
while a job is `queued`/`running` by replacing the export form with a progress
view); the OCR side does guard: an OCR job for a key is only launched when no
registry entry for that key exists. -/
theorem C2_duplicate_start_policy :
    (∀ (sessions : List (String × Session)) (jobs : List (String × ExportJob))
        (sid range fmt : String) (out : StartOut),
        start_export_job sessions jobs sid range fmt = Except.ok out →
        out.jobs = setAssoc jobs sid out.job ∧ out.job.status = "queued" ∧
          lookupA out.jobs sid = some out.job) ∧
      (∀ (ocr_jobs : List (String × OcrJob)) (key : String) (j : OcrJob),
        lookupA ocr_jobs key = some j → maybeStartOcr ocr_jobs key = (ocr_jobs, false)) := by
  constructor
  · intro sessions jobs sid range fmt out h
    unfold start_export_job at h
    split at h
    · exact Except.noConfusion h
    · split at h
      · exact Except.noConfusion h
      · have h' := Except.ok.inj h
        subst h'
        exact ⟨rfl, rfl, lookupA_setAssoc jobs sid _⟩
  · intro ocr_jobs key j h
    unfold maybeStartOcr
    rw [h]

/-- Witness for C2: the amended theorem at a concrete start and a concrete
occupied OCR key. -/
theorem C2_duplicate_start_policy_witness :
    (exStartOut.jobs = setAssoc [] "s" exStartOut.job ∧
        exStartOut.job.status = "queued" ∧
        lookupA exStartOut.jobs "s" = some exStartOut.job) ∧
      maybeStartOcr [("k", ocrFreshEntry)] "k" = ([("k", ocrFreshEntry)], false) :=
  ⟨C2_duplicate_start_policy.1 [("s", exSession)] [] "s" "1-2" "md" exStartOut (by decide),
   C2_duplicate_start_policy.2 [("k", ocrFreshEntry)] "k" ocrFreshEntry (by decide)⟩

/-! ### Claim C3 -/

/-- C3, counterexample: starting an export with the unparsable range `"x"`
raises nothing to the caller — `start_export_job` returns normally and a job
entry for the session key exists (status `queued`); the parse error only
appears later, in the worker, as the job's `error` field. -/
theorem C3_counterexample :
    start_export_job [("s", exSession)] [] "s" "x" "md" = Except.ok exStartOut ∧
      lookupA exStartOut.jobs "s" = some exStartOut.job ∧
      exStartOut.job.status = "queued" ∧
      (runExport (fun _ => false) (fun s => Except.ok s) (fun _ => "") (fun _ => none) "TS"
          exStartOut.sessionV exStartOut.jobFile "x" "md" exStartOut.job 0).job.status
        = "error" ∧
      (runExport (fun _ => false) (fun s => Except.ok s) (fun _ => "") (fun _ => none) "TS"
          exStartOut.sessionV exStartOut.jobFile "x" "md" exStartOut.job 0).job.error
        = some "No valid pages selected" := by
  exact ⟨by decide, by decide, rfl, by decide, by decide⟩

/-- C3 (amended): page-range parsing happens inside the background worker,
after the job entry is created.  When the range fails to parse (and is not
`"all"`, which bypasses the parser), `start_export_job` still returns
normally with a `queued` job registered under the session key, and the worker
converts the parse error into the job's terminal `error` state with the
message in the job's `error` field, leaving the session untouched; only the
missing-active-file check raises synchronously to the caller. -/
theorem C3_parse_error_async :
    ∀ (flag : Nat → Bool) (md2pdf : String → Except String String)
      (htmlRender : List String → String) (smartName : String → Option String)
      (nowStr : String) (sessions : List (String × Session))
      (jobs : List (String × ExportJob)) (sid range fmt : String) (out : StartOut)
      (e : String) (t0 : Nat),
      start_export_job sessions jobs sid range fmt = Except.ok out →
      pyStripLower range ≠ "all" →
      parse_page_range range (some (effTotal out.sessionV out.jobFile)) = Except.error e →
      out.job.status = "queued" ∧
      lookupA out.jobs sid = some out.job ∧
      (runExport flag md2pdf htmlRender smartName nowStr out.sessionV out.jobFile range fmt
          out.job t0).job.status = "error" ∧
      (runExport flag md2pdf htmlRender smartName nowStr out.sessionV out.jobFile range fmt
          out.job t0).job.error = some e ∧
      (runExport flag md2pdf htmlRender smartName nowStr out.sessionV out.jobFile range fmt
          out.job t0).session = out.sessionV := by
  intro flag md2pdf htmlRender smartName nowStr sessions jobs sid range fmt out e t0
    hstart hall hparse
  have hq : out.job.status = "queued" ∧ lookupA out.jobs sid = some out.job := by
    unfold start_export_job at hstart
    split at hstart
    · exact Except.noConfusion hstart
    · split at hstart
      · exact Except.noConfusion hstart
      · have h' := Except.ok.inj hstart
        subst h'
        exact ⟨rfl, lookupA_setAssoc jobs sid _⟩
  refine ⟨hq.1, hq.2, ?_⟩
  have hcond :
      (if pyStripLower range ≠ "all"
       then parse_page_range range (some (effTotal out.sessionV out.jobFile))
       else Except.ok (pyRange 1 (effTotal out.sessionV out.jobFile + 1)))
        = Except.error e := by
    rw [if_pos hall, hparse]
  simp only [runExport]
  rw [show
      (if pyStripLower range ≠ "all"
       then parse_page_range range
         (some (if ((lookupA out.sessionV.files out.jobFile.file_id).getD
                  out.jobFile).num_pages = 0 then 1
                else ((lookupA out.sessionV.files out.jobFile.file_id).getD
                  out.jobFile).num_pages))
       else Except.ok (pyRange 1
         ((if ((lookupA out.sessionV.files out.jobFile.file_id).getD
                  out.jobFile).num_pages = 0 then 1
           else ((lookupA out.sessionV.files out.jobFile.file_id).getD
                  out.jobFile).num_pages) + 1)))
      = Except.error e from hcond]
  exact ⟨rfl, rfl, rfl⟩

/-- Witness for C3: the amended theorem at the concrete start of
`C3_counterexample`. -/
theorem C3_parse_error_async_witness :
    exStartOut.job.status = "queued" ∧
      lookupA exStartOut.jobs "s" = some exStartOut.job ∧
      (runExport (fun _ => false) (fun s => Except.ok s) (fun _ => "") (fun _ => none) "TS"
          exStartOut.sessionV exStartOut.jobFile "x" "md" exStartOut.job 0).job.status
        = "error" ∧
      (runExport (fun _ => false) (fun s => Except.ok s) (fun _ => "") (fun _ => none) "TS"
          exStartOut.sessionV exStartOut.jobFile "x" "md" exStartOut.job 0).job.error
        = some "No valid pages selected" ∧
      (runExport (fun _ => false) (fun s => Except.ok s) (fun _ => "") (fun _ => none) "TS"
          exStartOut.sessionV exStartOut.jobFile "x" "md" exStartOut.job 0).session
        = exStartOut.sessionV :=
  C3_parse_error_async (fun _ => false) (fun s => Except.ok s) (fun _ => "") (fun _ => none)
    "TS" [("s", exSession)] [] "s" "x" "md" exStartOut "No valid pages selected" 0
    (by decide) (by decide) (by decide)

/-! ### Claim C4 -/

/-- C4: if the cancel flag (monotone: the UI only ever sets it) is observed
`true` at any of the worker's checkpoints during a `_run` execution, the job
terminates in state `cancelled`, the session's export history is unchanged —
no `ExportedItem` is appended — and indeed the whole session object (the
shared, cross-thread-visible structure of the spec's ontology) is untouched. -/
theorem C4_cancel_no_partial_history :
    ∀ (flag : Nat → Bool) (md2pdf : String → Except String String)
      (htmlRender : List String → String) (smartName : String → Option String)
      (nowStr : String) (session : Session) (sf : SessionFile)
      (range_text fmt : String) (job0 : ExportJob) (t0 : Nat),
      FlagMono flag →
      (runExport flag md2pdf htmlRender smartName nowStr session sf range_text fmt
          job0 t0).obs = true →
      (runExport flag md2pdf htmlRender smartName nowStr session sf range_text fmt
          job0 t0).job.status = "cancelled" ∧
      (runExport flag md2pdf htmlRender smartName nowStr session sf range_text fmt
          job0 t0).session.exports = session.exports ∧
      (runExport flag md2pdf htmlRender smartName nowStr session sf range_text fmt
          job0 t0).session = session := by
  intro flag md2pdf htmlRender smartName nowStr session sf range_text fmt job0 t0 hm hobs
  obtain ⟨h1, h2⟩ := runExport_obs_cancelled flag md2pdf htmlRender smartName nowStr session
    sf range_text fmt job0 t0 hm hobs
  exact ⟨h1, by rw [h2], h2⟩

/-- Witness for C4: the constantly-set flag is monotone, its first read is
observed, and the concrete run ends cancelled with the history unchanged. -/
theorem C4_cancel_no_partial_history_witness :
    (runExport (fun _ => true) (fun s => Except.ok s) (fun _ => "") (fun _ => none) "TS"
        exSession exFile "1-2" "md" exJob 0).job.status = "cancelled" ∧
      (runExport (fun _ => true) (fun s => Except.ok s) (fun _ => "") (fun _ => none) "TS"
          exSession exFile "1-2" "md" exJob 0).session.exports = exSession.exports ∧
      (runExport (fun _ => true) (fun s => Except.ok s) (fun _ => "") (fun _ => none) "TS"
          exSession exFile "1-2" "md" exJob 0).session = exSession :=
  C4_cancel_no_partial_history (fun _ => true) (fun s => Except.ok s) (fun _ => "")
    (fun _ => none) "TS" exSession exFile "1-2" "md" exJob 0
    (fun _ _ _ h => h) (by decide)

end ClipboardOcr
